import Mathlib

deriving instance DecidableEq for Except

/-!
Verification of the Uniwill hardware abstraction layer
(`src/tuxedo_ioctl/src/hal/uniwill.rs`).

The module is a straight-line request/response layer over an external
register transport.  We embed it shallowly:

* the transport is an oracle (`Transport`): a function giving the result of
  each read primitive and of each write primitive;
* every HAL operation returns its Rust result (`Except IoctlError α`)
  together with the list of transport operations it issued, so that
  "issues no read or write" is a provable statement;
* Rust `f64` rounding arithmetic is embedded as exact natural-number
  half-up rounding division (`roundDiv`); exactness is justified at the
  definition site;
* the `todo!()` stubs panic (abort) at runtime; a possibly-panicking
  computation is embedded in `Option`, with `none` for the abort.
-/

namespace TuxedoIoctl

/-- Error type of the crate (`crate::error::IoctlError`).  The variants
`DevNotAvailable` and `InvalidArgs` are the ones used in
`src/tuxedo_ioctl/src/hal/uniwill.rs`.  Modelled from the spec: the error
module itself is not under `src/`; section 7 of the spec names an
`Unimplemented` kind and a `TransportError` kind that is "propagated
unchanged" from the read/write primitives, modelled here as the
`Unimplemented` and `Transport` constructors (the `code` field stands for
the underlying I/O fault, so distinct transport faults stay distinct). -/
inductive IoctlError where
  | DevNotAvailable
  | InvalidArgs
  | Unimplemented
  | Transport (code : Nat)
  deriving DecidableEq

/-- The read primitives `read::uw::<field>` used by the module. -/
inductive ROp where
  | hw_check
  | model_id
  | fan_speed_0
  | fan_speed_1
  | fan_temp_0
  | fan_temp_1
  | fans_min_speed
  | fans_off_available
  | profs_available
  deriving DecidableEq

/-- The write primitives `write::uw::<field>(handle, v)` used by the module,
with the raw value written. -/
inductive WOp where
  | mode_enable (v : Nat)
  | fan_auto (v : Nat)
  | fan_speed_0 (v : Nat)
  | fan_speed_1 (v : Nat)
  | perf_prof (v : Nat)
  deriving DecidableEq

/-- A transport operation, for the trace of issued operations. -/
inductive Op where
  | read (r : ROp)
  | write (w : WOp)
  deriving DecidableEq

/-- The external transport: each read primitive yields either a raw numeric
value or an error, each write primitive yields either unit or an error.
Both are out of scope of the module and treated as an oracle. -/
structure Transport where
  rd : ROp → Except IoctlError Nat
  wr : WOp → Except IoctlError Unit

/-- The device instance.  The `file` handle carries no observable data at
this layer (all transport access goes through the oracle), so only
`num_of_fans` is kept. -/
structure UniwillHardware where
  num_of_fans : Nat
  deriving DecidableEq

/-- `MAX_FAN_SPEED : u8 = 0xc8` from the source. -/
def MAX_FAN_SPEED : Nat := 0xc8

def PERF_PROF_STR_BALANCED : String := "power_save"

def PERF_PROF_STR_ENTHUSIAST : String := "enthusiast"

def PERF_PROF_STR_OVERBOOST : String := "overboost"

/-- `PERF_PROFILE_MAP` from the source: name to raw numeric code. -/
def PERF_PROFILE_MAP : List (String × Nat) :=
  [(PERF_PROF_STR_BALANCED, 0x01),
   (PERF_PROF_STR_ENTHUSIAST, 0x02),
   (PERF_PROF_STR_OVERBOOST, 0x03)]

/-- Half-up rounding division: `roundDiv a b = round (a / b)` (round half
away from zero, on nonnegative arguments), as natural-number arithmetic:
`⌊a / b + 1 / 2⌋ = ⌊(2 a + b) / (2 b)⌋`. -/
def roundDiv (a b : Nat) : Nat := (2 * a + b) / (2 * b)

/-- The percent-to-raw conversion of `set_fan_speed_percent`:
`(MAX_FAN_SPEED as f64 * percent as f64 / 100.0).round() as u32`.
For every `percent ≤ 255` (the `u8` domain) the `f64` computation is exact:
`200 * percent ≤ 51000` is an integer exactly representable in `f64`, the
true quotient `2 * percent` is again exactly representable, so division is
exact, `round` is the identity on it, and the `as u32` cast does not
saturate.  Hence the exact embedding is half-up rounding division. -/
def percentToRaw (percent : Nat) : Nat := roundDiv (MAX_FAN_SPEED * percent) 100

/-- The raw-to-percent conversion of `get_fan_speed_percent`:
`(fan_speed_raw as f64 * 100.0 / MAX_FAN_SPEED as f64).round() as u8`.
The `f64` computation of `round(raw * 100 / 200) = round(raw / 2)` is exact
for any `raw < 2 ^ 32` (products below `2 ^ 53`, halves of 32-bit integers
exactly representable), and Rust's float-to-integer `as u8` cast saturates
at 255, hence the `min _ 255`. -/
def rawToPercent (raw : Nat) : Nat := min (roundDiv (raw * 100) MAX_FAN_SPEED) 255

/-- `HardwareDevice::init`: reads the hardware presence check; the `?`
operator propagates a read error unchanged; a read of exactly `1`
constructs the device with `num_of_fans = 2`; any other value yields
`DevNotAvailable`. -/
def init (t : Transport) : Except IoctlError UniwillHardware × List Op :=
  match t.rd .hw_check with
  | .error e => (.error e, [.read .hw_check])
  | .ok v =>
    if v = 1 then (.ok ⟨2⟩, [.read .hw_check])
    else (.error .DevNotAvailable, [.read .hw_check])

/-- `get_number_fans`: returns the stored fan count, no failure mode. -/
def get_number_fans (d : UniwillHardware) : Nat := d.num_of_fans

/-- `set_fan_speed_percent`: converts percent to raw, then dispatches on the
fan index; indices other than 0 and 1 fail with `DevNotAvailable` before
any transport access. -/
def set_fan_speed_percent (t : Transport) (fan fan_speed_percent : Nat) :
    Except IoctlError Unit × List Op :=
  let fan_speed_raw := percentToRaw fan_speed_percent
  match fan with
  | 0 => (t.wr (.fan_speed_0 fan_speed_raw), [.write (.fan_speed_0 fan_speed_raw)])
  | 1 => (t.wr (.fan_speed_1 fan_speed_raw), [.write (.fan_speed_1 fan_speed_raw)])
  | _ => (.error .DevNotAvailable, [])

/-- `get_fan_speed_percent`: dispatches the raw read on the fan index
(indices other than 0 and 1 fail with `DevNotAvailable` before any
transport access), propagates a read error via `?`, and converts the raw
value to percent. -/
def get_fan_speed_percent (t : Transport) (fan : Nat) :
    Except IoctlError Nat × List Op :=
  match fan with
  | 0 =>
    (match t.rd .fan_speed_0 with
     | .error e => .error e
     | .ok raw => .ok (rawToPercent raw), [.read .fan_speed_0])
  | 1 =>
    (match t.rd .fan_speed_1 with
     | .error e => .error e
     | .ok raw => .ok (rawToPercent raw), [.read .fan_speed_1])
  | _ => (.error .DevNotAvailable, [])

/-- `get_fan_temperature`: dispatches the raw read on the fan index (same
index policy), then treats the raw value 0 as the sentinel for "no
temp/fan" and fails with `DevNotAvailable`; otherwise returns the value
(the Rust `temp as u8` cast is `% 256`). -/
def get_fan_temperature (t : Transport) (fan : Nat) :
    Except IoctlError Nat × List Op :=
  match fan with
  | 0 =>
    (match t.rd .fan_temp_0 with
     | .error e => .error e
     | .ok temp => if temp = 0 then .error .DevNotAvailable else .ok (temp % 256),
     [.read .fan_temp_0])
  | 1 =>
    (match t.rd .fan_temp_1 with
     | .error e => .error e
     | .ok temp => if temp = 0 then .error .DevNotAvailable else .ok (temp % 256),
     [.read .fan_temp_1])
  | _ => (.error .DevNotAvailable, [])

/-- `get_available_odm_performance_profiles`: reads the raw count of
supported profiles; count 2 yields the two-element name list, count 3 the
three-element one, anything else `DevNotAvailable`; a read error is
propagated via `?`. -/
def get_available_odm_performance_profiles (t : Transport) :
    Except IoctlError (List String) × List Op :=
  (match t.rd .profs_available with
   | .error e => .error e
   | .ok 2 => .ok [PERF_PROF_STR_BALANCED, PERF_PROF_STR_ENTHUSIAST]
   | .ok 3 => .ok [PERF_PROF_STR_BALANCED, PERF_PROF_STR_ENTHUSIAST, PERF_PROF_STR_OVERBOOST]
   | .ok _ => .error .DevNotAvailable,
   [.read .profs_available])

/-- `set_odm_performance_profile`: exact string lookup in
`PERF_PROFILE_MAP`; on a match writes the numeric code (the `*id as u32`
cast is the identity on the codes 1..3); on no match fails with
`InvalidArgs` and issues no write. -/
def set_odm_performance_profile (t : Transport) (performance_profile : String) :
    Except IoctlError Unit × List Op :=
  match PERF_PROFILE_MAP.find? (fun p => p.1 == performance_profile) with
  | some (_, id) => (t.wr (.perf_prof id), [.write (.perf_prof id)])
  | none => (.error .InvalidArgs, [])

/-- `get_default_odm_performance_profile` is `todo!()` in the source:
calling it panics (aborts the thread) instead of returning; the panic is
embedded as `none`. -/
def get_default_odm_performance_profile (d : UniwillHardware) :
    Option (Except IoctlError String) := none

/-- `TdpDevice::get_number_tdps` is `todo!()`: panics, embedded as `none`. -/
def get_number_tdps (d : UniwillHardware) : Option (Except IoctlError Nat) := none

/-- `TdpDevice::get_tdp_descriptors` is `todo!()`: panics, embedded as `none`. -/
def get_tdp_descriptors (d : UniwillHardware) :
    Option (Except IoctlError (List String)) := none

/-- `TdpDevice::get_tdp_min` is `todo!()`: panics, embedded as `none`. -/
def get_tdp_min (d : UniwillHardware) (tdp_index : Nat) :
    Option (Except IoctlError Nat) := none

/-- `TdpDevice::get_tdp_max` is `todo!()`: panics, embedded as `none`. -/
def get_tdp_max (d : UniwillHardware) (tdp_index : Nat) :
    Option (Except IoctlError Nat) := none

/-- `TdpDevice::set_tdp` is `todo!()`: panics, embedded as `none`. -/
def set_tdp (d : UniwillHardware) (tdp_index tdp_value : Nat) :
    Option (Except IoctlError Unit) := none

/-- `TdpDevice::get_tdp` is `todo!()`: panics, embedded as `none`. -/
def get_tdp (d : UniwillHardware) (tdp_index : Nat) :
    Option (Except IoctlError Nat) := none

/-- Concrete oracle: every read returns `1`, every write succeeds. -/
def okT : Transport := ⟨fun _ => .ok 1, fun _ => .ok ()⟩

/-- Concrete oracle: every read returns `100`, every write succeeds. -/
def hundredT : Transport := ⟨fun _ => .ok 100, fun _ => .ok ()⟩

/-- Concrete oracle: every read returns `2`, every write succeeds. -/
def twoT : Transport := ⟨fun _ => .ok 2, fun _ => .ok ()⟩

/-- Concrete oracle: every read fails with the transport fault `7`. -/
def failT : Transport := ⟨fun _ => .error (.Transport 7), fun _ => .error (.Transport 7)⟩

lemma percentToRaw_eq (p : Nat) : percentToRaw p = 2 * p := by
  unfold percentToRaw roundDiv MAX_FAN_SPEED
  omega

lemma rawToPercent_eq (r : Nat) : rawToPercent r = min ((r + 1) / 2) 255 := by
  unfold rawToPercent roundDiv MAX_FAN_SPEED
  omega

lemma get_fan_speed_percent_eval (t : Transport) (fan raw : Nat)
    (hfan : fan = 0 ∨ fan = 1)
    (h : t.rd (if fan = 0 then ROp.fan_speed_0 else ROp.fan_speed_1) = .ok raw) :
    (get_fan_speed_percent t fan).1 = .ok (rawToPercent raw) := by
  rcases hfan with h0 | h1
  · subst h0; simp at h; simp [get_fan_speed_percent, h]
  · subst h1; simp at h; simp [get_fan_speed_percent, h]

lemma get_fan_temperature_eval (t : Transport) (fan raw : Nat)
    (hfan : fan = 0 ∨ fan = 1)
    (h : t.rd (if fan = 0 then ROp.fan_temp_0 else ROp.fan_temp_1) = .ok raw) :
    (get_fan_temperature t fan).1 =
      if raw = 0 then .error .DevNotAvailable else .ok (raw % 256) := by
  rcases hfan with h0 | h1
  · subst h0; simp at h; simp [get_fan_temperature, h]
  · subst h1; simp at h; simp [get_fan_temperature, h]

/-- C1 (code bug): `get_default_odm_performance_profile` and all six
`TdpDevice` operations are `todo!()` in the source, so at the device a
successful probe constructs they panic — a runtime abort, modelled `none` —
instead of returning any value; in particular they do not return the
explicit `Unimplemented` error value the spec requires. -/
theorem todo_ops_abort :
    get_default_odm_performance_profile ⟨2⟩ = none ∧
    get_number_tdps ⟨2⟩ = none ∧
    get_tdp_descriptors ⟨2⟩ = none ∧
    get_tdp_min ⟨2⟩ 0 = none ∧
    get_tdp_max ⟨2⟩ 0 = none ∧
    set_tdp ⟨2⟩ 0 0 = none ∧
    get_tdp ⟨2⟩ 0 = none ∧
    get_default_odm_performance_profile ⟨2⟩ ≠ some (.error .Unimplemented) :=
  ⟨rfl, rfl, rfl, rfl, rfl, rfl, rfl, by decide⟩

/-- C2 counterexample: when the presence-check read fails at the transport
level (here with transport fault 7), `init` propagates that transport error
unchanged via the question-mark operator; it does not return
`DevNotAvailable` as the claim states. -/
theorem init_transport_error_counterexample :
    (init failT).1 = .error (.Transport 7) ∧
    (init failT).1 ≠ .error .DevNotAvailable :=
  ⟨rfl, by decide⟩

/-- C2 amended: `init` constructs the device with `num_of_fans = 2` exactly
when the presence-check read returns `Ok 1`; a successful read of any other
value yields `DevNotAvailable`; a failed read propagates the read error
unchanged.  In every failure case no device value is produced. -/
theorem init_spec (t : Transport) :
    (t.rd .hw_check = .ok 1 → (init t).1 = .ok ⟨2⟩) ∧
    (∀ v, v ≠ 1 → t.rd .hw_check = .ok v → (init t).1 = .error .DevNotAvailable) ∧
    (∀ e, t.rd .hw_check = .error e → (init t).1 = .error e) := by
  refine ⟨fun h => ?_, fun v hv h => ?_, fun e h => ?_⟩
  · simp [init, h]
  · simp [init, h, hv]
  · simp [init, h]

/-- Witness for `init_spec` at a concrete transport whose presence check
returns 1. -/
theorem init_spec_witness : (init okT).1 = .ok ⟨2⟩ :=
  (init_spec okT).1 rfl

/-- C3: for fan index 0 or 1, when the transport read succeeds with a raw
value in the protocol range [0, 0xC8], `get_fan_speed_percent` returns
exactly `round(raw * 100 / 0xC8)`, which lies in [0, 100]. -/
theorem get_fan_speed_percent_range (t : Transport) (fan raw : Nat)
    (hfan : fan = 0 ∨ fan = 1)
    (h : t.rd (if fan = 0 then ROp.fan_speed_0 else ROp.fan_speed_1) = .ok raw)
    (hraw : raw ≤ 0xc8) :
    (get_fan_speed_percent t fan).1 = .ok (roundDiv (raw * 100) MAX_FAN_SPEED) ∧
    roundDiv (raw * 100) MAX_FAN_SPEED ≤ 100 := by
  have he : rawToPercent raw = roundDiv (raw * 100) MAX_FAN_SPEED := by
    unfold rawToPercent roundDiv MAX_FAN_SPEED
    omega
  have hb : roundDiv (raw * 100) MAX_FAN_SPEED ≤ 100 := by
    unfold roundDiv MAX_FAN_SPEED
    omega
  exact ⟨he ▸ get_fan_speed_percent_eval t fan raw hfan h, hb⟩

/-- Witness for `get_fan_speed_percent_range` at a concrete transport whose
fan-speed read returns the raw value 100 (yielding 50 percent). -/
theorem get_fan_speed_percent_range_witness :
    (get_fan_speed_percent hundredT 0).1 = .ok (roundDiv (100 * 100) MAX_FAN_SPEED) ∧
    roundDiv (100 * 100) MAX_FAN_SPEED ≤ 100 :=
  get_fan_speed_percent_range hundredT 0 100 (Or.inl rfl) rfl (by decide)

/-- C4: the round trip percent to raw to percent differs from the original
percent by at most 1 for every percent in [0, 100] (in fact it is exact),
and both conversions are monotone in their argument. -/
theorem fan_speed_round_trip (p : Nat) (hp : p ≤ 100) :
    rawToPercent (percentToRaw p) ≤ p + 1 ∧
    p ≤ rawToPercent (percentToRaw p) + 1 ∧
    (∀ a b, a ≤ b → percentToRaw a ≤ percentToRaw b) ∧
    (∀ a b, a ≤ b → rawToPercent a ≤ rawToPercent b) := by
  refine ⟨?_, ?_, fun a b hab => ?_, fun a b hab => ?_⟩ <;>
    simp only [percentToRaw_eq, rawToPercent_eq] <;> omega

/-- Witness for `fan_speed_round_trip` at percent 50. -/
theorem fan_speed_round_trip_witness :
    rawToPercent (percentToRaw 50) ≤ 50 + 1 ∧ 50 ≤ rawToPercent (percentToRaw 50) + 1 :=
  ⟨(fan_speed_round_trip 50 (by decide)).1, (fan_speed_round_trip 50 (by decide)).2.1⟩

/-- C5: for every fan index other than 0 and 1, `set_fan_speed_percent`,
`get_fan_speed_percent` and `get_fan_temperature` fail with
`DevNotAvailable` regardless of the percent argument, issuing no transport
read or write (empty operation trace). -/
theorem invalid_fan_index_rejected (t : Transport) (fan percent : Nat)
    (h0 : fan ≠ 0) (h1 : fan ≠ 1) :
    set_fan_speed_percent t fan percent = (.error .DevNotAvailable, []) ∧
    get_fan_speed_percent t fan = (.error .DevNotAvailable, []) ∧
    get_fan_temperature t fan = (.error .DevNotAvailable, []) := by
  rcases fan with _ | _ | n
  · exact absurd rfl h0
  · exact absurd rfl h1
  · exact ⟨rfl, rfl, rfl⟩

/-- Witness for `invalid_fan_index_rejected` at fan index 2. -/
theorem invalid_fan_index_rejected_witness :
    set_fan_speed_percent okT 2 0 = (.error .DevNotAvailable, []) ∧
    get_fan_speed_percent okT 2 = (.error .DevNotAvailable, []) ∧
    get_fan_temperature okT 2 = (.error .DevNotAvailable, []) :=
  invalid_fan_index_rejected okT 2 0 (by decide) (by decide)

/-- C6: for fan index 0 or 1, `get_fan_temperature` fails with
`DevNotAvailable` whenever the raw temperature read yields exactly 0,
returns `Ok raw` for every raw in [1, 255], and never returns `Ok 0`. -/
theorem fan_temperature_sentinel (t : Transport) (fan raw : Nat)
    (hfan : fan = 0 ∨ fan = 1)
    (h : t.rd (if fan = 0 then ROp.fan_temp_0 else ROp.fan_temp_1) = .ok raw)
    (hraw : raw ≤ 255) :
    (raw = 0 → (get_fan_temperature t fan).1 = .error .DevNotAvailable) ∧
    (1 ≤ raw → (get_fan_temperature t fan).1 = .ok raw) ∧
    (get_fan_temperature t fan).1 ≠ .ok 0 := by
  have hval := get_fan_temperature_eval t fan raw hfan h
  have hm : raw % 256 = raw := Nat.mod_eq_of_lt (by omega)
  refine ⟨fun hz => ?_, fun hpos => ?_, ?_⟩
  · rw [hval, if_pos hz]
  · rw [hval, if_neg (by omega), hm]
  · rw [hval]
    split
    · simp
    · rename_i hne
      rw [hm]
      simp [hne]

/-- Witness for `fan_temperature_sentinel` at a concrete transport whose
temperature read returns the raw value 100. -/
theorem fan_temperature_sentinel_witness :
    (get_fan_temperature hundredT 0).1 = .ok 100 :=
  (fan_temperature_sentinel hundredT 0 100 (Or.inl rfl) rfl (by decide)).2.1 (by decide)

/-- C7: `get_available_odm_performance_profiles` returns exactly the
two-name list for raw count 2, exactly the three-name list for raw count
3, fails with `DevNotAvailable` for every other raw count, and every
successful result is a prefix of the canonical ordered profile list. -/
theorem available_profiles_spec (t : Transport) (n : Nat)
    (h : t.rd .profs_available = .ok n) :
    (n = 2 → (get_available_odm_performance_profiles t).1 =
      .ok [PERF_PROF_STR_BALANCED, PERF_PROF_STR_ENTHUSIAST]) ∧
    (n = 3 → (get_available_odm_performance_profiles t).1 =
      .ok [PERF_PROF_STR_BALANCED, PERF_PROF_STR_ENTHUSIAST, PERF_PROF_STR_OVERBOOST]) ∧
    (n ≠ 2 → n ≠ 3 → (get_available_odm_performance_profiles t).1 = .error .DevNotAvailable) ∧
    (∀ l, (get_available_odm_performance_profiles t).1 = .ok l →
      ∃ rest, l ++ rest =
        [PERF_PROF_STR_BALANCED, PERF_PROF_STR_ENTHUSIAST, PERF_PROF_STR_OVERBOOST]) := by
  rcases n with _ | _ | _ | _ | m
  · have hr : (get_available_odm_performance_profiles t).1 = .error .DevNotAvailable := by
      simp [get_available_odm_performance_profiles, h]
    exact ⟨fun hc => absurd hc (by omega), fun hc => absurd hc (by omega), fun _ _ => hr,
      fun l hl => by rw [hr] at hl; exact Except.noConfusion hl⟩
  · have hr : (get_available_odm_performance_profiles t).1 = .error .DevNotAvailable := by
      simp [get_available_odm_performance_profiles, h]
    exact ⟨fun hc => absurd hc (by omega), fun hc => absurd hc (by omega), fun _ _ => hr,
      fun l hl => by rw [hr] at hl; exact Except.noConfusion hl⟩
  · have hr : (get_available_odm_performance_profiles t).1 =
        .ok [PERF_PROF_STR_BALANCED, PERF_PROF_STR_ENTHUSIAST] := by
      simp [get_available_odm_performance_profiles, h]
    refine ⟨fun _ => hr, fun hc => absurd hc (by omega), fun hc _ => absurd rfl hc,
      fun l hl => ?_⟩
    rw [hr] at hl
    exact ⟨[PERF_PROF_STR_OVERBOOST], by rw [← Except.ok.inj hl]; rfl⟩
  · have hr : (get_available_odm_performance_profiles t).1 =
        .ok [PERF_PROF_STR_BALANCED, PERF_PROF_STR_ENTHUSIAST, PERF_PROF_STR_OVERBOOST] := by
      simp [get_available_odm_performance_profiles, h]
    refine ⟨fun hc => absurd hc (by omega), fun _ => hr, fun _ hc => absurd rfl hc,
      fun l hl => ?_⟩
    rw [hr] at hl
    exact ⟨[], by rw [← Except.ok.inj hl, List.append_nil]⟩
  · have hr : (get_available_odm_performance_profiles t).1 = .error .DevNotAvailable := by
      simp [get_available_odm_performance_profiles, h]
    exact ⟨fun hc => absurd hc (by omega), fun hc => absurd hc (by omega), fun _ _ => hr,
      fun l hl => by rw [hr] at hl; exact Except.noConfusion hl⟩

/-- Witness for `available_profiles_spec` at a concrete transport whose
profile-count read returns 2. -/
theorem available_profiles_spec_witness :
    (get_available_odm_performance_profiles twoT).1 =
      .ok [PERF_PROF_STR_BALANCED, PERF_PROF_STR_ENTHUSIAST] :=
  (available_profiles_spec twoT 2 rfl).1 rfl

/-- C8: `set_odm_performance_profile` with an exact, case-sensitive match
of the canonical table writes the corresponding numeric code (power_save
to 1, enthusiast to 2, overboost to 3); with any other string it fails
with `InvalidArgs` and issues no write at all. -/
theorem set_profile_spec (t : Transport) (s : String) :
    (s = PERF_PROF_STR_BALANCED →
      set_odm_performance_profile t s = (t.wr (.perf_prof 1), [.write (.perf_prof 1)])) ∧
    (s = PERF_PROF_STR_ENTHUSIAST →
      set_odm_performance_profile t s = (t.wr (.perf_prof 2), [.write (.perf_prof 2)])) ∧
    (s = PERF_PROF_STR_OVERBOOST →
      set_odm_performance_profile t s = (t.wr (.perf_prof 3), [.write (.perf_prof 3)])) ∧
    (s ≠ PERF_PROF_STR_BALANCED → s ≠ PERF_PROF_STR_ENTHUSIAST → s ≠ PERF_PROF_STR_OVERBOOST →
      set_odm_performance_profile t s = (.error .InvalidArgs, [])) := by
  refine ⟨fun h1 => ?_, fun h2 => ?_, fun h3 => ?_, fun n1 n2 n3 => ?_⟩
  · subst h1; rfl
  · subst h2; rfl
  · subst h3; rfl
  · have e1 : (PERF_PROF_STR_BALANCED == s) = false := beq_eq_false_iff_ne.mpr (Ne.symm n1)
    have e2 : (PERF_PROF_STR_ENTHUSIAST == s) = false := beq_eq_false_iff_ne.mpr (Ne.symm n2)
    have e3 : (PERF_PROF_STR_OVERBOOST == s) = false := beq_eq_false_iff_ne.mpr (Ne.symm n3)
    simp [set_odm_performance_profile, PERF_PROFILE_MAP, List.find?, e1, e2, e3]

/-- Witness for `set_profile_spec` at the unknown profile name turbo. -/
theorem set_profile_spec_witness :
    set_odm_performance_profile okT "turbo" = (.error .InvalidArgs, []) :=
  (set_profile_spec okT "turbo").2.2.2 (by decide) (by decide) (by decide)

/-- C9: the percent-to-raw conversion used by `set_fan_speed_percent` maps
the endpoints exactly: percent 0 yields raw 0 and percent 100 yields raw
0xC8; accordingly `set_fan_speed_percent` for fan 0 writes raw 0 at
percent 0 and raw 0xC8 at percent 100. -/
theorem percent_to_raw_endpoints :
    percentToRaw 0 = 0 ∧ percentToRaw 100 = 0xc8 ∧
    set_fan_speed_percent okT 0 0 = (.ok (), [.write (.fan_speed_0 0)]) ∧
    set_fan_speed_percent okT 0 100 = (.ok (), [.write (.fan_speed_0 0xc8)]) :=
  ⟨by decide, by decide, rfl, rfl⟩

/-- C10: `set_fan_speed_percent` validates no upper bound on the percent
argument: for fan index 0 or 1 and every percent in the u8 domain it
issues exactly one transport write carrying `round(percent * 0xC8 / 100)`
and returns the transport's write result (so it never fails with
`InvalidArgs` of its own), and for every percent above 100 the raw value
written exceeds the protocol maximum 0xC8. -/
theorem set_fan_speed_no_validation (t : Transport) (fan percent : Nat)
    (hfan : fan = 0 ∨ fan = 1) (hp : percent ≤ 255) :
    (set_fan_speed_percent t fan percent).2 =
      [.write ((if fan = 0 then WOp.fan_speed_0 else WOp.fan_speed_1) (percentToRaw percent))] ∧
    (set_fan_speed_percent t fan percent).1 =
      t.wr ((if fan = 0 then WOp.fan_speed_0 else WOp.fan_speed_1) (percentToRaw percent)) ∧
    (100 < percent → 0xc8 < percentToRaw percent) := by
  have hgt : 100 < percent → 0xc8 < percentToRaw percent := by
    intro h
    rw [percentToRaw_eq]
    omega
  rcases hfan with h0 | h1
  · subst h0; exact ⟨rfl, rfl, hgt⟩
  · subst h1; exact ⟨rfl, rfl, hgt⟩

/-- Witness for `set_fan_speed_no_validation` at fan 0 and the
out-of-range percent 150. -/
theorem set_fan_speed_no_validation_witness :
    (set_fan_speed_percent okT 0 150).2 =
      [.write ((if 0 = 0 then WOp.fan_speed_0 else WOp.fan_speed_1) (percentToRaw 150))] ∧
    0xc8 < percentToRaw 150 :=
  ⟨(set_fan_speed_no_validation okT 0 150 (Or.inl rfl) (by decide)).1,
   (set_fan_speed_no_validation okT 0 150 (Or.inl rfl) (by decide)).2.2 (by decide)⟩

end TuxedoIoctl
